import Mathlib

/-!
Verification of the HyperFunnel MCP gateway tools.

The repository wraps a backend travel-inventory REST API in MCP tools.
Each tool builds query parameters or a JSON request body from its
(optional) arguments, performs one HTTP call, and normalises the outcome
(response, connection failure, or any other exception) into a uniform
result-envelope dictionary.

The embedding below mirrors the Python source:
  - `Val` models Python/JSON values appearing in the returned dictionaries
    (including `None`, which the source stores under `status_code` on
    transport failure).
  - An envelope is an association list `List (String × Val)`, mirroring a
    Python dict literal with its insertion order; `lookupKey` is key lookup.
  - `Outcome` models the three ways the `try` block can end: a received
    HTTP response, `httpx.ConnectError`, or any other exception.
  - `response.json()` is modelled by an oracle `parse : String → Option Val`;
    the nested bare `try/except` around it becomes `decodeContent`.
  - Each tool function is translated branch by branch from its source file.
-/

/-- Python/JSON values as they occur in the tool result dictionaries.
`rat` stands in for Python floats (the source only passes them through,
never computes with them). -/
inductive Val where
  | null : Val
  | bool : Bool → Val
  | int : Int → Val
  | rat : ℚ → Val
  | str : String → Val
  | list : List Val → Val
  | dict : List (String × Val) → Val

/-- Key lookup in an association-list dictionary (first binding wins;
all dict literals in the source have distinct keys). -/
def lookupKey (env : List (String × Val)) (k : String) : Option Val :=
  match env with
  | [] => none
  | (k2, v) :: rest => if k2 = k then some v else lookupKey rest k

/-- Key lookup in a string-valued parameter dictionary (query params). -/
def lookupP (ps : List (String × String)) (k : String) : Option String :=
  match ps with
  | [] => none
  | (k2, v) :: rest => if k2 = k then some v else lookupP rest k

/-- An HTTP response as seen by the tools: numeric status code, headers,
raw body text, and the final resolved URL (`str(response.url)`). -/
structure HttpResponse where
  status_code : Int
  headers : List (String × String)
  body : String
  url : String

/-- The three ways the outbound call can end inside the `try` block:
a response was received, `httpx.ConnectError` was raised, or some other
exception (carrying its message) was raised. -/
inductive Outcome where
  | response : HttpResponse → Outcome
  | connectError : Outcome
  | otherError : String → Outcome

/-- Models `httpx.Response.is_success`: the status code lies in the
2xx range, `200 ≤ code < 300`. -/
def is_success (sc : Int) : Bool :=
  decide (200 ≤ sc ∧ sc < 300)

/-- Models the nested `try: content = response.json() except: content =
response.text` block shared by every tool: attempt a JSON parse of the raw
body (the `parse` oracle stands for `response.json()`); on failure fall
back to the raw text verbatim. -/
def decodeContent (parse : String → Option Val) (body : String) : Val :=
  match parse body with
  | some j => j
  | none => Val.str body

/-- Models `dict(response.headers)`: the headers as a string-to-string
dictionary value. -/
def headersVal (hs : List (String × String)) : Val :=
  Val.dict (hs.map (fun p => (p.1, Val.str p.2)))

/-- Models `config.get_api_base_url`: `os.getenv("HYPERFUNNEL_API_BASE_URL",
"http://127.0.0.1:8000")` — the environment value when the variable is set,
the fixed default otherwise. -/
def get_api_base_url (env : Option String) : String :=
  match env with
  | some v => v
  | none => "http://127.0.0.1:8000"

/-- The hardcoded `base_url` local of `get_hotels` in `src/tools/hotels.py`
(identical in `src/my_server.py`); it does not consult the configuration. -/
def get_hotels_base_url : String := "http://127.0.0.1:8000/hotels"

/-- The hardcoded `url` local of `destination_request` in
`src/tools/destinations.py` (identical in `src/my_server.py`). -/
def destinations_url : String := "http://localhost:8000/destinations"

/-- The query-parameter builder of `get_hotels` (`src/tools/hotels.py`,
also `src/my_server.py`): `params = {}; if city: params["city"] = city;
elif country: params["country"] = country`.  Python truthiness on strings
means `some ""` behaves like `none`. -/
def get_hotels_params (country city : Option String) : List (String × String) :=
  match city with
  | some c =>
    if c = "" then
      match country with
      | some k => if k = "" then [] else [("country", k)]
      | none => []
    else [("city", c)]
  | none =>
    match country with
    | some k => if k = "" then [] else [("country", k)]
    | none => []

/-- The tool `get_hotels` (`src/tools/hotels.py`; the `src/my_server.py`
variant is textually identical): GET on the hardcoded hotels URL with
`get_hotels_params`; on response, envelope with status, headers, content,
success, and the resolved URL; on `ConnectError` or any other exception, an
error envelope without `headers`, `content`, or `url` keys. -/
def get_hotels (country city : Option String) (parse : String → Option Val)
    (o : Outcome) : List (String × Val) :=
  match o with
  | Outcome.response r =>
      [("status_code", Val.int r.status_code),
       ("headers", headersVal r.headers),
       ("content", decodeContent parse r.body),
       ("success", Val.bool (is_success r.status_code)),
       ("url", Val.str r.url)]
  | Outcome.connectError =>
      [("error", Val.str "Could not connect to 127.0.0.1:8000. Make sure the API is running."),
       ("status_code", Val.null),
       ("success", Val.bool false)]
  | Outcome.otherError msg =>
      [("error", Val.str ("Unexpected error: " ++ msg)),
       ("status_code", Val.null),
       ("success", Val.bool false)]

/-- Claim C2: for `get_hotels`, whenever a (non-empty, hence truthy) city
argument is provided, the built query parameters are exactly the single
`city` binding and contain no `country` key, whatever `country` is; in
particular `country="spain"`, `city="madrid"` yields exactly
`city=madrid`. -/
theorem c2_city_precedence (country : Option String) (c : String) (h : c ≠ "") :
    get_hotels_params country (some c) = [("city", c)] ∧
    lookupP (get_hotels_params country (some c)) "country" = none ∧
    get_hotels_params (some "spain") (some "madrid") = [("city", "madrid")] := by
  refine ⟨?_, ?_, by rfl⟩
  · simp [get_hotels_params, h]
  · simp [get_hotels_params, h, lookupP]

/-- Witness for C2 at `country="spain"`, `city="madrid"`. -/
theorem c2_city_precedence_witness :
    ("madrid" : String) ≠ "" ∧
    (get_hotels_params (some "spain") (some "madrid") = [("city", "madrid")] ∧
     lookupP (get_hotels_params (some "spain") (some "madrid")) "country" = none ∧
     get_hotels_params (some "spain") (some "madrid") = [("city", "madrid")]) :=
  ⟨by decide, c2_city_precedence (some "spain") "madrid" (by decide)⟩

/-- Claim C9: for `get_hotels`, an empty-string argument is treated as not
provided: with `city=""` and a non-empty country the query is exactly the
`country` binding (no `city` key), and with both `city=""` and
`country=""` the query has no keys at all. -/
theorem c9_empty_string_not_provided (k : String) (h : k ≠ "") :
    get_hotels_params (some k) (some "") = [("country", k)] ∧
    lookupP (get_hotels_params (some k) (some "")) "city" = none ∧
    get_hotels_params (some "") (some "") = [] := by
  refine ⟨?_, ?_, by rfl⟩
  · simp [get_hotels_params, h]
  · simp [get_hotels_params, h, lookupP]

/-- Witness for C9 at `country="spain"`, `city=""`. -/
theorem c9_empty_string_not_provided_witness :
    ("spain" : String) ≠ "" ∧
    (get_hotels_params (some "spain") (some "") = [("country", "spain")] ∧
     lookupP (get_hotels_params (some "spain") (some "")) "city" = none ∧
     get_hotels_params (some "") (some "") = []) :=
  ⟨by decide, c9_empty_string_not_provided "spain" (by decide)⟩

/-- The tool `destination_request` (`src/tools/destinations.py`; the
`src/my_server.py` variant is textually identical): GET on the hardcoded
localhost URL; note its error message names `localhost:8000` where every
other tool names `127.0.0.1:8000`. -/
def destination_request (parse : String → Option Val) (o : Outcome) :
    List (String × Val) :=
  match o with
  | Outcome.response r =>
      [("status_code", Val.int r.status_code),
       ("headers", headersVal r.headers),
       ("content", decodeContent parse r.body),
       ("success", Val.bool (is_success r.status_code))]
  | Outcome.connectError =>
      [("error", Val.str "Could not connect to localhost:8000. Make sure the API is running."),
       ("status_code", Val.null),
       ("success", Val.bool false)]
  | Outcome.otherError msg =>
      [("error", Val.str ("Unexpected error: " ++ msg)),
       ("status_code", Val.null),
       ("success", Val.bool false)]

/-- The `url` local of `get_hotel_by_id`:
`f"http://127.0.0.1:8000/hotels/{hotel_id}"`. -/
def get_hotel_by_id_url (hotel_id : String) : String :=
  "http://127.0.0.1:8000/hotels/" ++ hotel_id

/-- The tool `get_hotel_by_id` (`src/tools/hotels.py`): GET on the
hardcoded per-hotel URL; every branch echoes the `url` local. -/
def get_hotel_by_id (hotel_id : String) (parse : String → Option Val)
    (o : Outcome) : List (String × Val) :=
  match o with
  | Outcome.response r =>
      [("status_code", Val.int r.status_code),
       ("headers", headersVal r.headers),
       ("content", decodeContent parse r.body),
       ("success", Val.bool (is_success r.status_code)),
       ("url", Val.str (get_hotel_by_id_url hotel_id))]
  | Outcome.connectError =>
      [("error", Val.str "Could not connect to 127.0.0.1:8000. Make sure the API is running."),
       ("status_code", Val.null),
       ("success", Val.bool false),
       ("url", Val.str (get_hotel_by_id_url hotel_id))]
  | Outcome.otherError msg =>
      [("error", Val.str ("Unexpected error: " ++ msg)),
       ("status_code", Val.null),
       ("success", Val.bool false),
       ("url", Val.str (get_hotel_by_id_url hotel_id))]

/-- The `url` local of `get_hotel_with_rooms`:
`f"http://127.0.0.1:8000/hotels/{hotel_id}/with-rooms"`. -/
def get_hotel_with_rooms_url (hotel_id : String) : String :=
  "http://127.0.0.1:8000/hotels/" ++ hotel_id ++ "/with-rooms"

/-- The tool `get_hotel_with_rooms` (`src/tools/hotels.py`). -/
def get_hotel_with_rooms (hotel_id : String) (parse : String → Option Val)
    (o : Outcome) : List (String × Val) :=
  match o with
  | Outcome.response r =>
      [("status_code", Val.int r.status_code),
       ("headers", headersVal r.headers),
       ("content", decodeContent parse r.body),
       ("success", Val.bool (is_success r.status_code)),
       ("url", Val.str (get_hotel_with_rooms_url hotel_id))]
  | Outcome.connectError =>
      [("error", Val.str "Could not connect to 127.0.0.1:8000. Make sure the API is running."),
       ("status_code", Val.null),
       ("success", Val.bool false),
       ("url", Val.str (get_hotel_with_rooms_url hotel_id))]
  | Outcome.otherError msg =>
      [("error", Val.str ("Unexpected error: " ++ msg)),
       ("status_code", Val.null),
       ("success", Val.bool false),
       ("url", Val.str (get_hotel_with_rooms_url hotel_id))]

/-- The `url` local of `get_rooms_by_hotel_id`:
`f"{self.base_url}/rooms/by-hotel/{hotel_id}"`, where `self.base_url` is
`get_api_base_url()`. -/
def get_rooms_by_hotel_id_url (base_url hotel_id : String) : String :=
  base_url ++ "/rooms/by-hotel/" ++ hotel_id

/-- The tool `get_rooms_by_hotel_id` (`src/tools/rooms.py`): GET on the
configured base URL; the connect-error message still hardcodes
`127.0.0.1:8000`. -/
def get_rooms_by_hotel_id (hotel_id : String) (base_url : String)
    (parse : String → Option Val) (o : Outcome) : List (String × Val) :=
  match o with
  | Outcome.response r =>
      [("status_code", Val.int r.status_code),
       ("headers", headersVal r.headers),
       ("content", decodeContent parse r.body),
       ("success", Val.bool (is_success r.status_code)),
       ("url", Val.str (get_rooms_by_hotel_id_url base_url hotel_id))]
  | Outcome.connectError =>
      [("error", Val.str "Could not connect to 127.0.0.1:8000. Make sure the API is running."),
       ("status_code", Val.null),
       ("success", Val.bool false),
       ("url", Val.str (get_rooms_by_hotel_id_url base_url hotel_id))]
  | Outcome.otherError msg =>
      [("error", Val.str ("Unexpected error: " ++ msg)),
       ("status_code", Val.null),
       ("success", Val.bool false),
       ("url", Val.str (get_rooms_by_hotel_id_url base_url hotel_id))]

/-- The `url` local of `search_availability`:
`f"{self.base_url}/availability/search"`. -/
def search_availability_url (base_url : String) : String :=
  base_url ++ "/availability/search"

/-- The `request_body` local of `search_availability`
(`src/tools/availability.py`): four required keys, then `hotel_id` and
`room_id` appended only when truthy (`if hotel_id:` / `if room_id:`), so a
provided empty string is omitted. -/
def search_availability_body (check_in_date check_out_date : String)
    (guests min_rooms : Int) (hotel_id room_id : Option String) :
    List (String × Val) :=
  [("check_in_date", Val.str check_in_date),
   ("check_out_date", Val.str check_out_date),
   ("guests", Val.int guests),
   ("min_rooms", Val.int min_rooms)]
  ++ (match hotel_id with
      | some h => if h = "" then [] else [("hotel_id", Val.str h)]
      | none => [])
  ++ (match room_id with
      | some rm => if rm = "" then [] else [("room_id", Val.str rm)]
      | none => [])

/-- The tool `search_availability` (`src/tools/availability.py`): POST of
`search_availability_body` to the configured base URL; every branch echoes
`url` and `request_body`. -/
def search_availability (check_in_date check_out_date : String)
    (guests min_rooms : Int) (hotel_id room_id : Option String)
    (base_url : String) (parse : String → Option Val) (o : Outcome) :
    List (String × Val) :=
  match o with
  | Outcome.response r =>
      [("status_code", Val.int r.status_code),
       ("headers", headersVal r.headers),
       ("content", decodeContent parse r.body),
       ("success", Val.bool (is_success r.status_code)),
       ("url", Val.str (search_availability_url base_url)),
       ("request_body", Val.dict (search_availability_body check_in_date
          check_out_date guests min_rooms hotel_id room_id))]
  | Outcome.connectError =>
      [("error", Val.str "Could not connect to 127.0.0.1:8000. Make sure the API is running."),
       ("status_code", Val.null),
       ("success", Val.bool false),
       ("url", Val.str (search_availability_url base_url)),
       ("request_body", Val.dict (search_availability_body check_in_date
          check_out_date guests min_rooms hotel_id room_id))]
  | Outcome.otherError msg =>
      [("error", Val.str ("Unexpected error: " ++ msg)),
       ("status_code", Val.null),
       ("success", Val.bool false),
       ("url", Val.str (search_availability_url base_url)),
       ("request_body", Val.dict (search_availability_body check_in_date
          check_out_date guests min_rooms hotel_id room_id))]

/-- The `url` local of `get_room_calendar`:
`f"{self.base_url}/availability/room/{room_id}/calendar"`. -/
def get_room_calendar_url (base_url room_id : String) : String :=
  base_url ++ "/availability/room/" ++ room_id ++ "/calendar"

/-- The tool `get_room_calendar` (`src/tools/availability.py`): GET with
two required query parameters; the response branch echoes the resolved
`str(response.url)`, the failure branches echo the `url` local. -/
def get_room_calendar (room_id check_in_date check_out_date : String)
    (base_url : String) (parse : String → Option Val) (o : Outcome) :
    List (String × Val) :=
  match o with
  | Outcome.response r =>
      [("status_code", Val.int r.status_code),
       ("headers", headersVal r.headers),
       ("content", decodeContent parse r.body),
       ("success", Val.bool (is_success r.status_code)),
       ("url", Val.str r.url)]
  | Outcome.connectError =>
      [("error", Val.str "Could not connect to 127.0.0.1:8000. Make sure the API is running."),
       ("status_code", Val.null),
       ("success", Val.bool false),
       ("url", Val.str (get_room_calendar_url base_url room_id))]
  | Outcome.otherError msg =>
      [("error", Val.str ("Unexpected error: " ++ msg)),
       ("status_code", Val.null),
       ("success", Val.bool false),
       ("url", Val.str (get_room_calendar_url base_url room_id))]

/-- The `url` local of `get_booking_quote`:
`f"{self.base_url}/bookings/quote"`. -/
def get_booking_quote_url (base_url : String) : String :=
  base_url ++ "/bookings/quote"

/-- The `request_body` local of `get_booking_quote`
(`src/tools/bookings.py`): all four parameters are required and always
present. -/
def get_booking_quote_body (room_id check_in_date check_out_date : String)
    (guests : Int) : List (String × Val) :=
  [("room_id", Val.str room_id),
   ("check_in_date", Val.str check_in_date),
   ("check_out_date", Val.str check_out_date),
   ("guests", Val.int guests)]

/-- The tool `get_booking_quote` (`src/tools/bookings.py`). -/
def get_booking_quote (room_id check_in_date check_out_date : String)
    (guests : Int) (base_url : String) (parse : String → Option Val)
    (o : Outcome) : List (String × Val) :=
  match o with
  | Outcome.response r =>
      [("status_code", Val.int r.status_code),
       ("headers", headersVal r.headers),
       ("content", decodeContent parse r.body),
       ("success", Val.bool (is_success r.status_code)),
       ("url", Val.str (get_booking_quote_url base_url)),
       ("request_body", Val.dict (get_booking_quote_body room_id
          check_in_date check_out_date guests))]
  | Outcome.connectError =>
      [("error", Val.str "Could not connect to 127.0.0.1:8000. Make sure the API is running."),
       ("status_code", Val.null),
       ("success", Val.bool false),
       ("url", Val.str (get_booking_quote_url base_url)),
       ("request_body", Val.dict (get_booking_quote_body room_id
          check_in_date check_out_date guests))]
  | Outcome.otherError msg =>
      [("error", Val.str ("Unexpected error: " ++ msg)),
       ("status_code", Val.null),
       ("success", Val.bool false),
       ("url", Val.str (get_booking_quote_url base_url)),
       ("request_body", Val.dict (get_booking_quote_body room_id
          check_in_date check_out_date guests))]

/-- The `url` local of `create_booking`: `f"{self.base_url}/bookings"`. -/
def create_booking_url (base_url : String) : String :=
  base_url ++ "/bookings"

/-- The `request_body` local of `create_booking` (`src/tools/bookings.py`):
five required keys, then `price` and `status` appended only under
`if price is not None:` / `if status is not None:` — so `0.0` and `""`
ARE included, unlike the truthiness tests of `search_availability`. -/
def create_booking_body (hotel_id room_id check_in_date check_out_date : String)
    (guests : Int) (price : Option ℚ) (stat : Option String) :
    List (String × Val) :=
  [("hotel_id", Val.str hotel_id),
   ("room_id", Val.str room_id),
   ("check_in_date", Val.str check_in_date),
   ("check_out_date", Val.str check_out_date),
   ("guests", Val.int guests)]
  ++ (match price with
      | some p => [("price", Val.rat p)]
      | none => [])
  ++ (match stat with
      | some s => [("status", Val.str s)]
      | none => [])

/-- The tool `create_booking` (`src/tools/bookings.py`): POST of
`create_booking_body` to the configured base URL; the connect-error
message hardcodes `127.0.0.1:8000` even though the target URL comes from
the configuration. -/
def create_booking (hotel_id room_id check_in_date check_out_date : String)
    (guests : Int) (price : Option ℚ) (stat : Option String)
    (base_url : String) (parse : String → Option Val) (o : Outcome) :
    List (String × Val) :=
  match o with
  | Outcome.response r =>
      [("status_code", Val.int r.status_code),
       ("headers", headersVal r.headers),
       ("content", decodeContent parse r.body),
       ("success", Val.bool (is_success r.status_code)),
       ("url", Val.str (create_booking_url base_url)),
       ("request_body", Val.dict (create_booking_body hotel_id room_id
          check_in_date check_out_date guests price stat))]
  | Outcome.connectError =>
      [("error", Val.str "Could not connect to 127.0.0.1:8000. Make sure the API is running."),
       ("status_code", Val.null),
       ("success", Val.bool false),
       ("url", Val.str (create_booking_url base_url)),
       ("request_body", Val.dict (create_booking_body hotel_id room_id
          check_in_date check_out_date guests price stat))]
  | Outcome.otherError msg =>
      [("error", Val.str ("Unexpected error: " ++ msg)),
       ("status_code", Val.null),
       ("success", Val.bool false),
       ("url", Val.str (create_booking_url base_url)),
       ("request_body", Val.dict (create_booking_body hotel_id room_id
          check_in_date check_out_date guests price stat))]

/-- The envelope's `success` flag is true exactly when its `status_code`
key holds an integer in the 2xx range. -/
def successMatchesStatus (env : List (String × Val)) : Prop :=
  lookupKey env "success" = some (Val.bool true) ↔
    ∃ sc : Int, lookupKey env "status_code" = some (Val.int sc) ∧
      200 ≤ sc ∧ sc < 300

/-- The envelope is a structured answer: it carries a boolean `success`
key (rather than being a propagated exception). -/
def returnsEnvelope (env : List (String × Val)) : Prop :=
  ∃ b : Bool, lookupKey env "success" = some (Val.bool b)

/-- Claim C1: for every tool invocation, under every outcome, the
envelope's `success` field is true iff its `status_code` field holds a
numeric status with `200 ≤ status_code < 300`; the response body and the
JSON-parse oracle are universally quantified, so `success` is independent
of body content. -/
theorem c1_success_iff_2xx (parse : String → Option Val) (o : Outcome)
    (country city ohid orid stat : Option String)
    (hid rid ci co base : String) (g mr : Int) (pr : Option ℚ) :
    successMatchesStatus (destination_request parse o) ∧
    successMatchesStatus (get_hotels country city parse o) ∧
    successMatchesStatus (get_hotel_by_id hid parse o) ∧
    successMatchesStatus (get_hotel_with_rooms hid parse o) ∧
    successMatchesStatus (get_rooms_by_hotel_id hid base parse o) ∧
    successMatchesStatus (search_availability ci co g mr ohid orid base parse o) ∧
    successMatchesStatus (get_room_calendar rid ci co base parse o) ∧
    successMatchesStatus (get_booking_quote rid ci co g base parse o) ∧
    successMatchesStatus (create_booking hid rid ci co g pr stat base parse o) := by
  cases o <;>
    refine ⟨?_, ?_, ?_, ?_, ?_, ?_, ?_, ?_, ?_⟩ <;>
    simp [successMatchesStatus, destination_request, get_hotels, get_hotel_by_id,
      get_hotel_with_rooms, get_rooms_by_hotel_id, search_availability,
      get_room_calendar, get_booking_quote, create_booking, lookupKey, is_success]

/-- Claim C3: every tool invocation returns an envelope for every
transport outcome (received response, connection failure, or any other
exception): the embedded tool functions are total and every branch yields
a dictionary carrying a boolean `success` key, mirroring the all-catching
`try/except` structure of the source — exceptions never cross the gateway
boundary. -/
theorem c3_never_raises (parse : String → Option Val) (o : Outcome)
    (country city ohid orid stat : Option String)
    (hid rid ci co base : String) (g mr : Int) (pr : Option ℚ) :
    returnsEnvelope (destination_request parse o) ∧
    returnsEnvelope (get_hotels country city parse o) ∧
    returnsEnvelope (get_hotel_by_id hid parse o) ∧
    returnsEnvelope (get_hotel_with_rooms hid parse o) ∧
    returnsEnvelope (get_rooms_by_hotel_id hid base parse o) ∧
    returnsEnvelope (search_availability ci co g mr ohid orid base parse o) ∧
    returnsEnvelope (get_room_calendar rid ci co base parse o) ∧
    returnsEnvelope (get_booking_quote rid ci co g base parse o) ∧
    returnsEnvelope (create_booking hid rid ci co g pr stat base parse o) := by
  cases o <;>
    exact ⟨⟨_, rfl⟩, ⟨_, rfl⟩, ⟨_, rfl⟩, ⟨_, rfl⟩, ⟨_, rfl⟩, ⟨_, rfl⟩, ⟨_, rfl⟩,
      ⟨_, rfl⟩, ⟨_, rfl⟩⟩

/-- The exact shape the source gives every transport-failure envelope:
an `error` key holding the non-empty message `emsg`, a `status_code` key
explicitly bound to `None`, no `headers` key, no `content` key, and
`success = false`. -/
def transportFailureShape (env : List (String × Val)) (emsg : String) : Prop :=
  lookupKey env "error" = some (Val.str emsg) ∧
  0 < emsg.length ∧
  lookupKey env "status_code" = some Val.null ∧
  lookupKey env "headers" = none ∧
  lookupKey env "content" = none ∧
  lookupKey env "success" = some (Val.bool false)

/-- Any message produced by the `except Exception` branch is non-empty,
since it starts with the fixed prefix. -/
theorem unexpected_message_len (msg : String) :
    0 < ("Unexpected error: " ++ msg).length := by
  rw [String.length_append]
  have h : ("Unexpected error: " : String).length = 18 := by decide
  omega

/-- Claim C4, counterexample: on a connection failure, `get_hotels`
returns an envelope with NO `headers` key at all — in particular its
`headers` field is not an empty mapping — and with a `status_code` key
explicitly present and bound to `None`, contradicting "status_code
absent, an empty headers mapping" as stated. -/
theorem c4_counterexample :
    lookupKey (get_hotels none none (fun _ => none) Outcome.connectError)
      "headers" = none ∧
    ¬ (lookupKey (get_hotels none none (fun _ => none) Outcome.connectError)
      "headers" = some (Val.dict [])) ∧
    lookupKey (get_hotels none none (fun _ => none) Outcome.connectError)
      "status_code" = some Val.null := by
  refine ⟨rfl, ?_, rfl⟩
  simp [get_hotels, lookupKey]

/-- Claim C4 as amended: for every tool invocation ending in a transport
failure (connection failure or any other exception), the envelope has its
`status_code` key bound to `None` (no numeric status), no `headers` key
(hence no header entries), a non-empty `error` string, `success = false`,
and no `content` key — the envelope never mixes a parsed body with an
error. -/
theorem c4_amended (parse : String → Option Val) (msg : String)
    (country city ohid orid stat : Option String)
    (hid rid ci co base : String) (g mr : Int) (pr : Option ℚ) :
    transportFailureShape (destination_request parse Outcome.connectError)
      "Could not connect to localhost:8000. Make sure the API is running." ∧
    transportFailureShape (destination_request parse (Outcome.otherError msg))
      ("Unexpected error: " ++ msg) ∧
    transportFailureShape (get_hotels country city parse Outcome.connectError)
      "Could not connect to 127.0.0.1:8000. Make sure the API is running." ∧
    transportFailureShape (get_hotels country city parse (Outcome.otherError msg))
      ("Unexpected error: " ++ msg) ∧
    transportFailureShape (get_hotel_by_id hid parse Outcome.connectError)
      "Could not connect to 127.0.0.1:8000. Make sure the API is running." ∧
    transportFailureShape (get_hotel_by_id hid parse (Outcome.otherError msg))
      ("Unexpected error: " ++ msg) ∧
    transportFailureShape (get_hotel_with_rooms hid parse Outcome.connectError)
      "Could not connect to 127.0.0.1:8000. Make sure the API is running." ∧
    transportFailureShape (get_hotel_with_rooms hid parse (Outcome.otherError msg))
      ("Unexpected error: " ++ msg) ∧
    transportFailureShape (get_rooms_by_hotel_id hid base parse Outcome.connectError)
      "Could not connect to 127.0.0.1:8000. Make sure the API is running." ∧
    transportFailureShape (get_rooms_by_hotel_id hid base parse (Outcome.otherError msg))
      ("Unexpected error: " ++ msg) ∧
    transportFailureShape
      (search_availability ci co g mr ohid orid base parse Outcome.connectError)
      "Could not connect to 127.0.0.1:8000. Make sure the API is running." ∧
    transportFailureShape
      (search_availability ci co g mr ohid orid base parse (Outcome.otherError msg))
      ("Unexpected error: " ++ msg) ∧
    transportFailureShape (get_room_calendar rid ci co base parse Outcome.connectError)
      "Could not connect to 127.0.0.1:8000. Make sure the API is running." ∧
    transportFailureShape (get_room_calendar rid ci co base parse (Outcome.otherError msg))
      ("Unexpected error: " ++ msg) ∧
    transportFailureShape (get_booking_quote rid ci co g base parse Outcome.connectError)
      "Could not connect to 127.0.0.1:8000. Make sure the API is running." ∧
    transportFailureShape (get_booking_quote rid ci co g base parse (Outcome.otherError msg))
      ("Unexpected error: " ++ msg) ∧
    transportFailureShape
      (create_booking hid rid ci co g pr stat base parse Outcome.connectError)
      "Could not connect to 127.0.0.1:8000. Make sure the API is running." ∧
    transportFailureShape
      (create_booking hid rid ci co g pr stat base parse (Outcome.otherError msg))
      ("Unexpected error: " ++ msg) := by
  have hc : 0 < ("Could not connect to 127.0.0.1:8000. Make sure the API is running." : String).length := by decide
  have hd : 0 < ("Could not connect to localhost:8000. Make sure the API is running." : String).length := by decide
  have hu := unexpected_message_len msg
  exact ⟨⟨rfl, hd, rfl, rfl, rfl, rfl⟩, ⟨rfl, hu, rfl, rfl, rfl, rfl⟩,
    ⟨rfl, hc, rfl, rfl, rfl, rfl⟩, ⟨rfl, hu, rfl, rfl, rfl, rfl⟩,
    ⟨rfl, hc, rfl, rfl, rfl, rfl⟩, ⟨rfl, hu, rfl, rfl, rfl, rfl⟩,
    ⟨rfl, hc, rfl, rfl, rfl, rfl⟩, ⟨rfl, hu, rfl, rfl, rfl, rfl⟩,
    ⟨rfl, hc, rfl, rfl, rfl, rfl⟩, ⟨rfl, hu, rfl, rfl, rfl, rfl⟩,
    ⟨rfl, hc, rfl, rfl, rfl, rfl⟩, ⟨rfl, hu, rfl, rfl, rfl, rfl⟩,
    ⟨rfl, hc, rfl, rfl, rfl, rfl⟩, ⟨rfl, hu, rfl, rfl, rfl, rfl⟩,
    ⟨rfl, hc, rfl, rfl, rfl, rfl⟩, ⟨rfl, hu, rfl, rfl, rfl, rfl⟩,
    ⟨rfl, hc, rfl, rfl, rfl, rfl⟩, ⟨rfl, hu, rfl, rfl, rfl, rfl⟩⟩

/-- Claim C5: for every tool invocation whose response body fails to parse
as JSON (`parse body = none`, modelling `response.json()` raising), the
envelope's `content` field is the raw body text verbatim as a string —
the fallback never raises and never drops the body. -/
theorem c5_content_fallback (parse : String → Option Val) (body : String)
    (h : parse body = none) (sc : Int) (hs : List (String × String)) (u : String)
    (country city ohid orid stat : Option String)
    (hid rid ci co base : String) (g mr : Int) (pr : Option ℚ) :
    lookupKey (destination_request parse (Outcome.response ⟨sc, hs, body, u⟩))
      "content" = some (Val.str body) ∧
    lookupKey (get_hotels country city parse (Outcome.response ⟨sc, hs, body, u⟩))
      "content" = some (Val.str body) ∧
    lookupKey (get_hotel_by_id hid parse (Outcome.response ⟨sc, hs, body, u⟩))
      "content" = some (Val.str body) ∧
    lookupKey (get_hotel_with_rooms hid parse (Outcome.response ⟨sc, hs, body, u⟩))
      "content" = some (Val.str body) ∧
    lookupKey (get_rooms_by_hotel_id hid base parse (Outcome.response ⟨sc, hs, body, u⟩))
      "content" = some (Val.str body) ∧
    lookupKey (search_availability ci co g mr ohid orid base parse
      (Outcome.response ⟨sc, hs, body, u⟩)) "content" = some (Val.str body) ∧
    lookupKey (get_room_calendar rid ci co base parse
      (Outcome.response ⟨sc, hs, body, u⟩)) "content" = some (Val.str body) ∧
    lookupKey (get_booking_quote rid ci co g base parse
      (Outcome.response ⟨sc, hs, body, u⟩)) "content" = some (Val.str body) ∧
    lookupKey (create_booking hid rid ci co g pr stat base parse
      (Outcome.response ⟨sc, hs, body, u⟩)) "content" = some (Val.str body) := by
  refine ⟨?_, ?_, ?_, ?_, ?_, ?_, ?_, ?_, ?_⟩ <;>
    simp [destination_request, get_hotels, get_hotel_by_id, get_hotel_with_rooms,
      get_rooms_by_hotel_id, search_availability, get_room_calendar,
      get_booking_quote, create_booking, lookupKey, decodeContent, h]

/-- Witness for C5 at the spec's example: a response whose body is the
non-JSON text "not json{" yields that exact string as `content`, for
every tool. -/
theorem c5_content_fallback_witness :
    ((fun _ => (none : Option Val)) ("not json\x7b" : String) = none) ∧
    (lookupKey (destination_request (fun _ => none)
        (Outcome.response ⟨404, [], "not json\x7b", "u"⟩))
      "content" = some (Val.str "not json\x7b") ∧
    lookupKey (get_hotels none none (fun _ => none)
        (Outcome.response ⟨404, [], "not json\x7b", "u"⟩))
      "content" = some (Val.str "not json\x7b") ∧
    lookupKey (get_hotel_by_id "h1" (fun _ => none)
        (Outcome.response ⟨404, [], "not json\x7b", "u"⟩))
      "content" = some (Val.str "not json\x7b") ∧
    lookupKey (get_hotel_with_rooms "h1" (fun _ => none)
        (Outcome.response ⟨404, [], "not json\x7b", "u"⟩))
      "content" = some (Val.str "not json\x7b") ∧
    lookupKey (get_rooms_by_hotel_id "h1" "http://127.0.0.1:8000" (fun _ => none)
        (Outcome.response ⟨404, [], "not json\x7b", "u"⟩))
      "content" = some (Val.str "not json\x7b") ∧
    lookupKey (search_availability "ci" "co" 2 1 none none "http://127.0.0.1:8000"
        (fun _ => none) (Outcome.response ⟨404, [], "not json\x7b", "u"⟩))
      "content" = some (Val.str "not json\x7b") ∧
    lookupKey (get_room_calendar "r1" "ci" "co" "http://127.0.0.1:8000"
        (fun _ => none) (Outcome.response ⟨404, [], "not json\x7b", "u"⟩))
      "content" = some (Val.str "not json\x7b") ∧
    lookupKey (get_booking_quote "r1" "ci" "co" 2 "http://127.0.0.1:8000"
        (fun _ => none) (Outcome.response ⟨404, [], "not json\x7b", "u"⟩))
      "content" = some (Val.str "not json\x7b") ∧
    lookupKey (create_booking "h1" "r1" "ci" "co" 2 none none "http://127.0.0.1:8000"
        (fun _ => none) (Outcome.response ⟨404, [], "not json\x7b", "u"⟩))
      "content" = some (Val.str "not json\x7b")) :=
  ⟨rfl, c5_content_fallback (fun _ => none) "not json\x7b" rfl 404 [] "u"
    none none none none none "h1" "r1" "ci" "co" "http://127.0.0.1:8000" 2 1 none⟩

/-- Claim C6, counterexample: with the base URL configured to
`http://example.com:9000` via the environment override, `create_booking`
targets `http://example.com:9000/bookings`, yet its connection-failure
error message still reads `127.0.0.1:8000` — not the host and port of the
URL the tool actually targeted. -/
theorem c6_counterexample :
    lookupKey (create_booking "h1" "r1" "2025-01-01" "2025-01-02" 2 none none
        (get_api_base_url (some "http://example.com:9000")) (fun _ => none)
        Outcome.connectError) "url"
      = some (Val.str "http://example.com:9000/bookings") ∧
    lookupKey (create_booking "h1" "r1" "2025-01-01" "2025-01-02" 2 none none
        (get_api_base_url (some "http://example.com:9000")) (fun _ => none)
        Outcome.connectError) "error"
      = some (Val.str "Could not connect to 127.0.0.1:8000. Make sure the API is running.") ∧
    ¬ (lookupKey (create_booking "h1" "r1" "2025-01-01" "2025-01-02" 2 none none
        (get_api_base_url (some "http://example.com:9000")) (fun _ => none)
        Outcome.connectError) "error"
      = some (Val.str "Could not connect to example.com:9000. Make sure the API is running.")) := by
  refine ⟨rfl, rfl, ?_⟩
  simp [create_booking, lookupKey, get_api_base_url]

/-- Claim C6 as amended: on connection failure every tool reports a fixed
literal error message — `localhost:8000` for `destination_request` and
`127.0.0.1:8000` for all other tools — independent of the configured base
URL, and hence matching the targeted host and port only under the default
configuration (the `url` conjunct exhibits that the actual target follows
the configured base). -/
theorem c6_amended (parse : String → Option Val)
    (country city ohid orid stat : Option String)
    (hid rid ci co base : String) (g mr : Int) (pr : Option ℚ) :
    lookupKey (destination_request parse Outcome.connectError) "error"
      = some (Val.str "Could not connect to localhost:8000. Make sure the API is running.") ∧
    lookupKey (get_hotels country city parse Outcome.connectError) "error"
      = some (Val.str "Could not connect to 127.0.0.1:8000. Make sure the API is running.") ∧
    lookupKey (get_hotel_by_id hid parse Outcome.connectError) "error"
      = some (Val.str "Could not connect to 127.0.0.1:8000. Make sure the API is running.") ∧
    lookupKey (get_hotel_with_rooms hid parse Outcome.connectError) "error"
      = some (Val.str "Could not connect to 127.0.0.1:8000. Make sure the API is running.") ∧
    lookupKey (get_rooms_by_hotel_id hid base parse Outcome.connectError) "error"
      = some (Val.str "Could not connect to 127.0.0.1:8000. Make sure the API is running.") ∧
    lookupKey (search_availability ci co g mr ohid orid base parse
        Outcome.connectError) "error"
      = some (Val.str "Could not connect to 127.0.0.1:8000. Make sure the API is running.") ∧
    lookupKey (get_room_calendar rid ci co base parse Outcome.connectError) "error"
      = some (Val.str "Could not connect to 127.0.0.1:8000. Make sure the API is running.") ∧
    lookupKey (get_booking_quote rid ci co g base parse Outcome.connectError) "error"
      = some (Val.str "Could not connect to 127.0.0.1:8000. Make sure the API is running.") ∧
    lookupKey (create_booking hid rid ci co g pr stat base parse
        Outcome.connectError) "error"
      = some (Val.str "Could not connect to 127.0.0.1:8000. Make sure the API is running.") ∧
    lookupKey (create_booking hid rid ci co g pr stat base parse
        Outcome.connectError) "url"
      = some (Val.str (base ++ "/bookings")) :=
  ⟨rfl, rfl, rfl, rfl, rfl, rfl, rfl, rfl, rfl, rfl⟩

/-- Claim C7: optional scalar parameters appear in the outgoing query or
body only when provided and never as a null-valued key: an omitted
optional argument leaves no key behind, a provided one is stored with its
own (non-null) value; in particular `create_booking` with `price` omitted
sends a body with no `price` key, and with `price = 199.5` a body
containing `price: 199.5`. -/
theorem c7_optional_params (country city ohid orid stat : Option String)
    (hid rid ci co : String) (g mr : Int) (pr : Option ℚ) (q : ℚ) (s : String) :
    lookupP (get_hotels_params country none) "city" = none ∧
    lookupP (get_hotels_params none city) "country" = none ∧
    lookupKey (search_availability_body ci co g mr none orid) "hotel_id" = none ∧
    lookupKey (search_availability_body ci co g mr ohid none) "room_id" = none ∧
    lookupKey (create_booking_body hid rid ci co g none stat) "price" = none ∧
    lookupKey (create_booking_body hid rid ci co g pr none) "status" = none ∧
    lookupKey (create_booking_body hid rid ci co g (some q) stat) "price"
      = some (Val.rat q) ∧
    lookupKey (create_booking_body hid rid ci co g pr (some s)) "status"
      = some (Val.str s) ∧
    lookupKey (create_booking_body hid rid ci co g (some (199.5 : ℚ)) stat) "price"
      = some (Val.rat 199.5) := by
  refine ⟨?_, ?_, ?_, ?_, ?_, ?_, ?_, ?_, ?_⟩
  · cases country with
    | none => rfl
    | some k =>
      by_cases hk : k = "" <;> simp [get_hotels_params, lookupP, hk]
  · cases city with
    | none => rfl
    | some c =>
      by_cases hc : c = "" <;> simp [get_hotels_params, lookupP, hc]
  · cases orid with
    | none => rfl
    | some rm =>
      by_cases hr : rm = "" <;> simp [search_availability_body, lookupKey, hr]
  · cases ohid with
    | none => rfl
    | some hh =>
      by_cases hh2 : hh = "" <;> simp [search_availability_body, lookupKey, hh2]
  · cases stat with
    | none => rfl
    | some st => simp [create_booking_body, lookupKey]
  · cases pr with
    | none => rfl
    | some p => simp [create_booking_body, lookupKey]
  · cases stat with
    | none => rfl
    | some st => simp [create_booking_body, lookupKey]
  · cases pr with
    | none => rfl
    | some p => simp [create_booking_body, lookupKey]
  · cases stat with
    | none => rfl
    | some st => simp [create_booking_body, lookupKey]

/-- Claim C8, counterexample: with the environment override set to
`http://example.com:9000`, the configuration value follows the override,
but `get_hotels` still targets its hardcoded `http://127.0.0.1:8000/hotels`
— its URL does not extend the configured base, so not every tool builds
its request URL from the shared configuration value. -/
theorem c8_counterexample :
    get_api_base_url (some "http://example.com:9000") = "http://example.com:9000" ∧
    get_hotels_base_url = "http://127.0.0.1:8000/hotels" ∧
    ¬ (∃ s : String, get_hotels_base_url
        = get_api_base_url (some "http://example.com:9000") ++ s) := by
  refine ⟨rfl, rfl, ?_⟩
  rintro ⟨s, hs⟩
  simp only [get_hotels_base_url, get_api_base_url] at hs
  have h2 := congrArg String.data hs
  rw [String.data_append] at h2
  have h3 := congrArg (fun l => l.getD 7 'z') h2
  simp only [] at h3
  rw [List.getD_append] at h3
  · exact absurd h3 (by decide)
  · decide

/-- Claim C8 as amended: the backend base URL is a configuration value
read from an environment override with default `http://127.0.0.1:8000`;
the bookings, availability, and rooms tools build their request URLs as
extensions of this shared value, but `get_hotels` (and the rest of
`src/tools/hotels.py`) and `destination_request` use hardcoded base URLs
(`http://127.0.0.1:8000` and `http://localhost:8000` respectively) that
ignore the configuration. -/
theorem c8_amended (env : Option String) (b hid rid : String) :
    get_api_base_url none = "http://127.0.0.1:8000" ∧
    get_api_base_url (some b) = b ∧
    (∃ s, create_booking_url (get_api_base_url env) = get_api_base_url env ++ s) ∧
    (∃ s, get_booking_quote_url (get_api_base_url env) = get_api_base_url env ++ s) ∧
    (∃ s, search_availability_url (get_api_base_url env) = get_api_base_url env ++ s) ∧
    (∃ s, get_room_calendar_url (get_api_base_url env) rid = get_api_base_url env ++ s) ∧
    (∃ s, get_rooms_by_hotel_id_url (get_api_base_url env) hid
        = get_api_base_url env ++ s) ∧
    get_hotels_base_url = "http://127.0.0.1:8000/hotels" ∧
    get_hotel_by_id_url hid = "http://127.0.0.1:8000/hotels/" ++ hid ∧
    destinations_url = "http://localhost:8000/destinations" :=
  ⟨rfl, rfl, ⟨"/bookings", rfl⟩, ⟨"/bookings/quote", rfl⟩,
    ⟨"/availability/search", rfl⟩,
    ⟨"/availability/room/" ++ rid ++ "/calendar",
      by simp [get_room_calendar_url, String.append_assoc]⟩,
    ⟨"/rooms/by-hotel/" ++ hid,
      by simp [get_rooms_by_hotel_id_url, String.append_assoc]⟩,
    rfl, rfl, rfl⟩

/-- Claim C10: the omission test for optional parameters is not uniform:
`create_booking` compares against `None`, so `price = 0.0` and
`status = ""` are included in the request body, whereas
`search_availability` tests truthiness, so provided empty strings are
omitted. -/
theorem c10_omission_tests_differ :
    lookupKey (create_booking_body "h1" "r1" "2025-01-01" "2025-01-02" 2
      (some 0) (some "")) "price" = some (Val.rat 0) ∧
    lookupKey (create_booking_body "h1" "r1" "2025-01-01" "2025-01-02" 2
      (some 0) (some "")) "status" = some (Val.str "") ∧
    lookupKey (search_availability_body "2025-01-01" "2025-01-02" 2 1
      (some "") (some "")) "hotel_id" = none ∧
    lookupKey (search_availability_body "2025-01-01" "2025-01-02" 2 1
      (some "") (some "")) "room_id" = none :=
  ⟨rfl, rfl, rfl, rfl⟩
